import Mathlib

/-!
Verification of the Kita growth-model engine (`src/KitaGrowthEngine.jsx`).

The core consists of four pure functions: the month-by-month MRR simulator
`calculateMRR`, the single-lever impact analyzer `calcIndependentImpact`,
the insight-template selection inside `generateCoreInsight`, and the
upside prioritizer that re-sorts the 30-day plan.

Embedding choices:
* JavaScript numbers are modelled as exact rationals (`ℚ`).  All JS
  arithmetic appearing in the engine (`+ - * /`, `Math.pow` with a natural
  exponent) agrees with rational arithmetic as long as no division by zero
  occurs; the spec's data-model invariant `activationRate ≠ 0` is carried
  as a hypothesis wherever the quotient `activation / activationRate`
  matters.
* `Math.round` rounds half toward +∞, i.e. `Math.round x = ⌊x + 1/2⌋`,
  modelled by `jsRound`.
* The one place where the engine can divide by zero on its own output —
  `calcIndependentImpact` when the baseline month-12 MRR is zero — produces
  a non-finite JS value (`NaN` or `±Infinity`).  That fallible result is
  modelled as `Option ℤ`, with `none` standing for the non-finite value.
* The three optional lever overrides (JS `??`) are modelled with
  `Option ℚ` and `Option.getD`.
-/

/-- The nine baseline assumption fields (`DEFAULT_ASSUMPTIONS` shape). -/
structure Assumptions where
  customers : ℚ
  arpu : ℚ
  churnRate : ℚ
  activationRate : ℚ
  leadsPerMonth : ℚ
  demoRate : ℚ
  trialRate : ℚ
  paidRate : ℚ
  leadGrowthRate : ℚ
deriving DecidableEq

/-- The `DEFAULT_ASSUMPTIONS` constant of the source. -/
def DEFAULT_ASSUMPTIONS : Assumptions :=
  { customers := 15
    arpu := 6
    churnRate := 5
    activationRate := 35
    leadsPerMonth := 50
    demoRate := 45
    trialRate := 65
    paidRate := 55
    leadGrowthRate := 8 }

/-- The constant `ACTIVATION_WEIGHT = 0.4` from the source. -/
def ACTIVATION_WEIGHT : ℚ := 2 / 5

/-- JS `Math.round`: round half toward positive infinity. -/
def jsRound (x : ℚ) : ℤ := ⌊x + 1 / 2⌋

/-- One iteration of the `for (let m = 1; m <= month; m++)` loop body of
`calculateMRR`.  `actScale` is the `activationRatio` the source computes
once before the loop (`activation / assumptions.activationRate`). -/
def monthStep (a : Assumptions) (churn actScale : ℚ) (m : ℕ) (customers : ℚ) : ℚ :=
  let leads := a.leadsPerMonth * (1 + a.leadGrowthRate / 100) ^ m
  let newCustomers := leads * (a.demoRate / 100) * (a.trialRate / 100) * (a.paidRate / 100)
    * (actScale * ACTIVATION_WEIGHT + (1 - ACTIVATION_WEIGHT))
  let retained := customers * (1 - churn / 100)
  retained + newCustomers

/-- The running `customers` variable of `calculateMRR` after `m` loop
iterations (iteration `m` uses lead exponent `m`, exactly as the source). -/
def customersAt (a : Assumptions) (churn actScale : ℚ) : ℕ → ℚ
  | 0 => a.customers
  | m + 1 => monthStep a churn actScale (m + 1) (customersAt a churn actScale m)

/-- The source's `calculateMRR(assumptions, churnOverride, arpuOverride, activationOverride, month)`; `??`-defaulting of the three overrides is `Option.getD`. -/
def calculateMRR (a : Assumptions)
    (churnOverride arpuOverride activationOverride : Option ℚ) (month : ℕ) : ℤ :=
  let churn := churnOverride.getD a.churnRate
  let arpu := arpuOverride.getD a.arpu
  let activation := activationOverride.getD a.activationRate
  jsRound (customersAt a churn (activation / a.activationRate) month * arpu * 1000)

/-- The three growth levers of the `LEVERS` table (`churn`, `arpu`, `activation`). -/
inductive Lever
  | churn
  | arpu
  | activation
deriving DecidableEq

/-- The `targetValue` field of each entry of the `LEVERS` table. -/
def Lever.targetValue : Lever → ℚ
  | .churn => 2
  | .arpu => 9
  | .activation => 60

/-- The baseline assumption field each lever overrides (its `baseKey`). -/
def leverBase (a : Assumptions) : Lever → ℚ
  | .churn => a.churnRate
  | .arpu => a.arpu
  | .activation => a.activationRate

/-- The `baseMRR` computed by `calcIndependentImpact`: month-12 MRR with all
three levers at their baseline values. -/
def baselineMRR (a : Assumptions) : ℤ :=
  calculateMRR a (some a.churnRate) (some a.arpu) (some a.activationRate) 12

/-- The scenario override triple `o` built by `calcIndependentImpact`
(`o = {churn, arpu, activation} ; o[leverId] = value`). -/
def scenarioValues (a : Assumptions) (l : Lever) (v : ℚ) : ℚ × ℚ × ℚ :=
  match l with
  | .churn => (v, a.arpu, a.activationRate)
  | .arpu => (a.churnRate, v, a.activationRate)
  | .activation => (a.churnRate, a.arpu, v)

/-- The `newMRR` of `calcIndependentImpact`: month-12 MRR with exactly one
lever moved to the candidate value. -/
def scenarioMRR (a : Assumptions) (l : Lever) (v : ℚ) : ℤ :=
  calculateMRR a (some (scenarioValues a l v).1) (some (scenarioValues a l v).2.1)
    (some (scenarioValues a l v).2.2) 12

/-- The finite value `Math.round(((newMRR - baseMRR) / baseMRR) * 100)` that
`calcIndependentImpact` returns whenever `baseMRR ≠ 0`. -/
def impactVal (a : Assumptions) (l : Lever) (v : ℚ) : ℤ :=
  jsRound ((((scenarioMRR a l v - baselineMRR a : ℤ) : ℚ) / (baselineMRR a : ℚ)) * 100)

/-- The source's `calcIndependentImpact(assumptions, leverId, value)`.  When `baseMRR = 0`
the JS source divides by zero, producing `NaN` or `±Infinity` which
`Math.round` propagates; that non-finite outcome is modelled as `none`. -/
def calcIndependentImpact (a : Assumptions) (l : Lever) (v : ℚ) : Option ℤ :=
  if baselineMRR a = 0 then none else some (impactVal a l v)

/-- The four text templates `generateCoreInsight` can select between.  The
textual rendering and the numeric fill-ins are display concerns; the core
contract verified here is the selection. -/
inductive InsightTemplate
  | noChanges
  | singleLever
  | retMonBeatActivation
  | generic
deriving DecidableEq

/-- The `impacts` array of `generateCoreInsight`: per lever the absolute
independent impact at its current effective value, in the source's input
order (retention, monetization, activation).  The source sorts this array
descending before filtering, but the template selection below only uses
filters, lengths and sums of it, all invariant under permutation, so the
sort is omitted from the embedding. -/
def insightPcts (a : Assumptions) (ec ea eact : ℚ) : List (Lever × Option ℤ) :=
  [(Lever.churn, (calcIndependentImpact a Lever.churn ec).map (fun v => |v|)),
   (Lever.arpu, (calcIndependentImpact a Lever.arpu ea).map (fun v => |v|)),
   (Lever.activation, (calcIndependentImpact a Lever.activation eact).map (fun v => |v|))]

/-- The `i.pct > 0` test of `generateCoreInsight`.  A `NaN` percentage
(modelled `none`) compares false in JS, exactly as here. -/
def isModifiedEntry (p : Lever × Option ℤ) : Bool :=
  match p.2 with
  | some v => decide (0 < v)
  | none => false

/-- The `modified` array of `generateCoreInsight`. -/
def insightModified (a : Assumptions) (ec ea eact : ℚ) : List (Lever × Option ℤ) :=
  (insightPcts a ec ea eact).filter isModifiedEntry

/-- Percentage of an entry, as the rational the JS comparison uses; inside
`modified` every entry is `some`, so the default is never read there. -/
def pctOf (p : Lever × Option ℤ) : ℚ := ((p.2.getD 0 : ℤ) : ℚ)

/-- The template-selection logic of `generateCoreInsight`: empty `modified`
selects the no-changes template, a single modified lever the single-lever
template, and with two or more modified levers the retention+monetization
template is selected only when both non-activation levers are modified
(`retMonImpact.length >= 2`), activation is among the modified levers
(JS truthiness of `acqImpact`, here `acq ≠ []` with its percentage read
off the first — unique — match), and the non-activation sum exceeds
`1.5 ×` the activation percentage; otherwise the generic template. -/
def insightTemplate (a : Assumptions) (ec ea eact : ℚ) : InsightTemplate :=
  let modified := insightModified a ec ea eact
  if modified.length = 0 then .noChanges
  else if modified.length = 1 then .singleLever
  else
    let rm := modified.filter (fun p => decide (p.1 ≠ Lever.activation))
    let acq := modified.filter (fun p => decide (p.1 = Lever.activation))
    if 2 ≤ rm.length ∧ acq ≠ [] ∧ (rm.map pctOf).sum > ((acq.map pctOf).headI) * (3 / 2) then
      .retMonBeatActivation
    else .generic

/-- The condition under which the source selects the retention+monetization
template (given at least two modified levers): all three levers modified and
the retention+monetization combined impact above `1.5 ×` activation's. -/
def retMonCond (a : Assumptions) (ec ea eact : ℚ) : Prop :=
  0 < |impactVal a Lever.churn ec| ∧ 0 < |impactVal a Lever.arpu ea| ∧
    0 < |impactVal a Lever.activation eact| ∧
    (((|impactVal a Lever.churn ec| : ℤ) : ℚ) + ((|impactVal a Lever.arpu ea| : ℤ) : ℚ) >
      ((|impactVal a Lever.activation eact| : ℤ) : ℚ) * (3 / 2))

/-- The `remaining = Math.max(0, upside - currentImpact)` of the 30-day-plan
prioritizer, in the `baseMRR ≠ 0` case where both impacts are finite. -/
def remainingVal (a : Assumptions) (cur : ℚ) (l : Lever) : ℤ :=
  max 0 (|impactVal a l l.targetValue| - |impactVal a l cur|)

/-- The prioritizer's `remaining` as the source computes it, through
`calcIndependentImpact`; `none` models the `NaN` that `Math.abs`,
subtraction and `Math.max` propagate when the baseline MRR is zero. -/
def remainingOpt (a : Assumptions) (cur : ℚ) (l : Lever) : Option ℤ :=
  match calcIndependentImpact a l l.targetValue, calcIndependentImpact a l cur with
  | some u, some c => some (max 0 (|u| - |c|))
  | _, _ => none

/-- Effective current value of each lever, as passed by the component. -/
def currentOf (ec ea eact : ℚ) : Lever → ℚ
  | .churn => ec
  | .arpu => ea
  | .activation => eact

/-- Declared input order of the three plan initiatives in `planItems`:
retention, activation, monetization. -/
def planIdx : Lever → ℕ
  | .churn => 0
  | .activation => 1
  | .arpu => 2

/-- Stable descending insertion: an element is placed before the first
element whose key it reaches.  `Array.prototype.sort` is stable per
ECMA-262, so the comparator `(a, b) => b.remaining - a.remaining` realizes
exactly this order. -/
def insertDesc (x : Lever × ℤ) : List (Lever × ℤ) → List (Lever × ℤ)
  | [] => [x]
  | y :: ys => if y.2 ≤ x.2 then x :: y :: ys else y :: insertDesc x ys

/-- Stable descending sort by `remaining`, modelling the source's
`.sort((a, b) => b.remaining - a.remaining)`. -/
def sortDesc : List (Lever × ℤ) → List (Lever × ℤ)
  | [] => []
  | x :: xs => insertDesc x (sortDesc xs)

/-- The `planItems`-with-`remaining` list before sorting, in declared order. -/
def planUnsorted (a : Assumptions) (ec ea eact : ℚ) : List (Lever × ℤ) :=
  [(Lever.churn, remainingVal a ec Lever.churn),
   (Lever.activation, remainingVal a eact Lever.activation),
   (Lever.arpu, remainingVal a ea Lever.arpu)]

/-- The prioritized 30-day plan: initiatives sorted descending by remaining
upside. -/
def planRemaining (a : Assumptions) (ec ea eact : ℚ) : List (Lever × ℤ) :=
  sortDesc (planUnsorted a ec ea eact)

/-- The recurrence exactly as the specification words it: starting from
`customers = assumptions.customers`, iterate months `1..horizon`; each
month takes `leads = leadsPerMonth × (1 + leadGrowthRate/100)^month`
recomputed fresh from month zero, the activation ratio
`activationOverride / assumptions.activationRate`, new customers through
the funnel with blending weight `W = 0.4`, and retention
`customers × (1 − churnOverride/100)`. -/
def specProjectCustomers (a : Assumptions) (churnO activationO : ℚ) (horizon : ℕ) : ℚ :=
  (List.range horizon).foldl
    (fun customers i =>
      let month := i + 1
      let leads := a.leadsPerMonth * (1 + a.leadGrowthRate / 100) ^ month
      let activationR := activationO / a.activationRate
      let newCustomers := leads * (a.demoRate / 100) * (a.trialRate / 100) * (a.paidRate / 100)
        * (activationR * (2 / 5) + (1 - 2 / 5))
      let retained := customers * (1 - churnO / 100)
      retained + newCustomers)
    a.customers

/-- The data-model ranges of §3 of the specification that the algebraic
claims quantify over: non-negative counts and funnel percentages, a
strictly positive baseline activation rate, and lead growth at or above
`−100` percent (so lead volume can shrink but not change sign). -/
def ValidAssumptions (a : Assumptions) : Prop :=
  0 ≤ a.customers ∧ 0 < a.activationRate ∧ 0 ≤ a.leadsPerMonth ∧ 0 ≤ a.demoRate ∧
    0 ≤ a.trialRate ∧ 0 ≤ a.paidRate ∧ (-100 : ℚ) ≤ a.leadGrowthRate

/-- Degenerate but data-model-valid assumption set whose baseline month-12
MRR is zero: full monthly churn and no lead inflow. -/
def DEGENERATE_ASSUMPTIONS : Assumptions :=
  { DEFAULT_ASSUMPTIONS with churnRate := 100, leadsPerMonth := 0 }

/-- Default assumptions with the lead inflow removed, isolating retention. -/
def NOLEAD_ASSUMPTIONS : Assumptions :=
  { DEFAULT_ASSUMPTIONS with leadsPerMonth := 0 }

/-! ### Helper lemmas -/

lemma jsRound_eq_of (x : ℚ) (z : ℤ) (h1 : (z : ℚ) ≤ x + 1 / 2) (h2 : x + 1 / 2 < z + 1) :
    jsRound x = z := by
  unfold jsRound
  rw [Int.floor_eq_iff]
  exact ⟨h1, h2⟩

lemma jsRound_le_jsRound {x y : ℚ} (h : x ≤ y) : jsRound x ≤ jsRound y :=
  Int.floor_le_floor (by linarith)

lemma jsRound_nonneg {x : ℚ} (h : 0 ≤ x) : 0 ≤ jsRound x := by
  unfold jsRound
  exact Int.le_floor.2 (by push_cast; linarith)

lemma mrr_base_eval : calculateMRR DEFAULT_ASSUMPTIONS (some 5) (some 6) (some 35) 12 = 841635 := by
  unfold calculateMRR
  apply jsRound_eq_of <;>
    norm_num [customersAt, monthStep, ACTIVATION_WEIGHT, DEFAULT_ASSUMPTIONS]

lemma mrr_churn2_eval : calculateMRR DEFAULT_ASSUMPTIONS (some 2) (some 6) (some 35) 12 = 974161 := by
  unfold calculateMRR
  apply jsRound_eq_of <;>
    norm_num [customersAt, monthStep, ACTIVATION_WEIGHT, DEFAULT_ASSUMPTIONS]

lemma mrr_arpu9_eval : calculateMRR DEFAULT_ASSUMPTIONS (some 5) (some 9) (some 35) 12 = 1262453 := by
  unfold calculateMRR
  apply jsRound_eq_of <;>
    norm_num [customersAt, monthStep, ACTIVATION_WEIGHT, DEFAULT_ASSUMPTIONS]

lemma mrr_act60_eval : calculateMRR DEFAULT_ASSUMPTIONS (some 5) (some 6) (some 60) 12 = 1068208 := by
  unfold calculateMRR
  apply jsRound_eq_of <;>
    norm_num [customersAt, monthStep, ACTIVATION_WEIGHT, DEFAULT_ASSUMPTIONS]

lemma mrr_all_eval : calculateMRR DEFAULT_ASSUMPTIONS (some 2) (some 9) (some 60) 12 = 1848472 := by
  unfold calculateMRR
  apply jsRound_eq_of <;>
    norm_num [customersAt, monthStep, ACTIVATION_WEIGHT, DEFAULT_ASSUMPTIONS]

lemma baselineMRR_default : baselineMRR DEFAULT_ASSUMPTIONS = 841635 := by
  have h : baselineMRR DEFAULT_ASSUMPTIONS =
      calculateMRR DEFAULT_ASSUMPTIONS (some 5) (some 6) (some 35) 12 := rfl
  rw [h, mrr_base_eval]

lemma baselineMRR_default_ne : baselineMRR DEFAULT_ASSUMPTIONS ≠ 0 := by
  rw [baselineMRR_default]; norm_num

lemma baselineMRR_degenerate : baselineMRR DEGENERATE_ASSUMPTIONS = 0 := by
  have h : baselineMRR DEGENERATE_ASSUMPTIONS =
      calculateMRR DEGENERATE_ASSUMPTIONS (some 100) (some 6) (some 35) 12 := rfl
  rw [h]
  unfold calculateMRR
  apply jsRound_eq_of <;>
    norm_num [customersAt, monthStep, ACTIVATION_WEIGHT, DEGENERATE_ASSUMPTIONS,
      DEFAULT_ASSUMPTIONS]

lemma impact_churn2_eval : impactVal DEFAULT_ASSUMPTIONS Lever.churn 2 = 16 := by
  have hs : scenarioMRR DEFAULT_ASSUMPTIONS Lever.churn 2 =
      calculateMRR DEFAULT_ASSUMPTIONS (some 2) (some 6) (some 35) 12 := rfl
  unfold impactVal
  rw [hs, mrr_churn2_eval, baselineMRR_default]
  apply jsRound_eq_of <;> norm_num

lemma impact_arpu9_eval : impactVal DEFAULT_ASSUMPTIONS Lever.arpu 9 = 50 := by
  have hs : scenarioMRR DEFAULT_ASSUMPTIONS Lever.arpu 9 =
      calculateMRR DEFAULT_ASSUMPTIONS (some 5) (some 9) (some 35) 12 := rfl
  unfold impactVal
  rw [hs, mrr_arpu9_eval, baselineMRR_default]
  apply jsRound_eq_of <;> norm_num

lemma impact_act60_eval : impactVal DEFAULT_ASSUMPTIONS Lever.activation 60 = 27 := by
  have hs : scenarioMRR DEFAULT_ASSUMPTIONS Lever.activation 60 =
      calculateMRR DEFAULT_ASSUMPTIONS (some 5) (some 6) (some 60) 12 := rfl
  unfold impactVal
  rw [hs, mrr_act60_eval, baselineMRR_default]
  apply jsRound_eq_of <;> norm_num

lemma impact_act35_eval : impactVal DEFAULT_ASSUMPTIONS Lever.activation 35 = 0 := by
  have hs : scenarioMRR DEFAULT_ASSUMPTIONS Lever.activation 35 =
      calculateMRR DEFAULT_ASSUMPTIONS (some 5) (some 6) (some 35) 12 := rfl
  unfold impactVal
  rw [hs, mrr_base_eval, baselineMRR_default]
  apply jsRound_eq_of <;> norm_num

lemma insertDesc_perm (x : Lever × ℤ) (l : List (Lever × ℤ)) :
    (insertDesc x l).Perm (x :: l) := by
  induction l with
  | nil => exact List.Perm.refl _
  | cons y ys ih =>
    simp only [insertDesc]
    split_ifs with h
    · exact List.Perm.refl _
    · exact (ih.cons y).trans (List.Perm.swap x y ys)

lemma sortDesc_perm (l : List (Lever × ℤ)) : (sortDesc l).Perm l := by
  induction l with
  | nil => exact List.Perm.refl _
  | cons x xs ih => exact (insertDesc_perm x (sortDesc xs)).trans (ih.cons x)

lemma pairwise_three {α : Type} {R : α → α → Prop} {x y z : α}
    (hxy : R x y) (hxz : R x z) (hyz : R y z) : List.Pairwise R [x, y, z] := by
  simp [List.pairwise_cons]
  exact ⟨⟨hxy, hxz⟩, hyz⟩

lemma sortDesc_three_pairwise (r1 r2 r3 : ℤ) :
    List.Pairwise (fun p q : Lever × ℤ => q.2 ≤ p.2 ∧ (p.2 = q.2 → planIdx p.1 < planIdx q.1))
      (sortDesc [(Lever.churn, r1), (Lever.activation, r2), (Lever.arpu, r3)]) := by
  have hca : planIdx Lever.churn < planIdx Lever.activation := by decide
  have hcr : planIdx Lever.churn < planIdx Lever.arpu := by decide
  have har : planIdx Lever.activation < planIdx Lever.arpu := by decide
  show List.Pairwise _
    (insertDesc (Lever.churn, r1)
      (insertDesc (Lever.activation, r2) (insertDesc (Lever.arpu, r3) [])))
  rcases le_or_lt r3 r2 with h32 | h32
  · have hinner : insertDesc (Lever.activation, r2) (insertDesc (Lever.arpu, r3) []) =
        [(Lever.activation, r2), (Lever.arpu, r3)] := by
      simp [insertDesc, h32]
    rw [hinner]
    rcases le_or_lt r2 r1 with h21 | h21
    · have houter : insertDesc (Lever.churn, r1) [(Lever.activation, r2), (Lever.arpu, r3)] =
          [(Lever.churn, r1), (Lever.activation, r2), (Lever.arpu, r3)] := by
        simp [insertDesc, h21]
      rw [houter]
      exact pairwise_three ⟨h21, fun _ => hca⟩ ⟨le_trans h32 h21, fun _ => hcr⟩
        ⟨h32, fun _ => har⟩
    · rcases le_or_lt r3 r1 with h31 | h31
      · have houter : insertDesc (Lever.churn, r1) [(Lever.activation, r2), (Lever.arpu, r3)] =
            [(Lever.activation, r2), (Lever.churn, r1), (Lever.arpu, r3)] := by
          simp [insertDesc, h21.not_le, h31]
        rw [houter]
        exact pairwise_three ⟨h21.le, fun he => absurd he (by omega)⟩ ⟨h32, fun _ => har⟩
          ⟨h31, fun _ => hcr⟩
      · have houter : insertDesc (Lever.churn, r1) [(Lever.activation, r2), (Lever.arpu, r3)] =
            [(Lever.activation, r2), (Lever.arpu, r3), (Lever.churn, r1)] := by
          simp [insertDesc, h21.not_le, h31.not_le]
        rw [houter]
        exact pairwise_three ⟨h32, fun _ => har⟩ ⟨h21.le, fun he => absurd he (by omega)⟩
          ⟨h31.le, fun he => absurd he (by omega)⟩
  · have hinner : insertDesc (Lever.activation, r2) (insertDesc (Lever.arpu, r3) []) =
        [(Lever.arpu, r3), (Lever.activation, r2)] := by
      simp [insertDesc, h32.not_le]
    rw [hinner]
    rcases le_or_lt r3 r1 with h31 | h31
    · have houter : insertDesc (Lever.churn, r1) [(Lever.arpu, r3), (Lever.activation, r2)] =
          [(Lever.churn, r1), (Lever.arpu, r3), (Lever.activation, r2)] := by
        simp [insertDesc, h31]
      rw [houter]
      exact pairwise_three ⟨h31, fun _ => hcr⟩ ⟨by omega, fun _ => hca⟩
        ⟨h32.le, fun he => absurd he (by omega)⟩
    · rcases le_or_lt r2 r1 with h21 | h21
      · have houter : insertDesc (Lever.churn, r1) [(Lever.arpu, r3), (Lever.activation, r2)] =
            [(Lever.arpu, r3), (Lever.churn, r1), (Lever.activation, r2)] := by
          simp [insertDesc, h31.not_le, h21]
        rw [houter]
        exact pairwise_three ⟨h31.le, fun he => absurd he (by omega)⟩
          ⟨h32.le, fun he => absurd he (by omega)⟩ ⟨h21, fun _ => hca⟩
      · have houter : insertDesc (Lever.churn, r1) [(Lever.arpu, r3), (Lever.activation, r2)] =
            [(Lever.arpu, r3), (Lever.activation, r2), (Lever.churn, r1)] := by
          simp [insertDesc, h31.not_le, h21.not_le]
        rw [houter]
        exact pairwise_three ⟨h32.le, fun he => absurd he (by omega)⟩
          ⟨h31.le, fun he => absurd he (by omega)⟩ ⟨h21.le, fun he => absurd he (by omega)⟩

lemma customersAt_nonneg (a : Assumptions) (hv : ValidAssumptions a) (churn s : ℚ)
    (hc1 : churn ≤ 100) (hs : 0 ≤ s) : ∀ m, 0 ≤ customersAt a churn s m := by
  obtain ⟨h1, _h2, h3, h4, h5, h6, h7⟩ := hv
  intro m
  induction m with
  | zero => exact h1
  | succ n ih =>
    have hg : (0 : ℚ) ≤ 1 + a.leadGrowthRate / 100 := by linarith
    have hlead : (0 : ℚ) ≤ a.leadsPerMonth * (1 + a.leadGrowthRate / 100) ^ (n + 1) :=
      mul_nonneg h3 (pow_nonneg hg _)
    have hblend : (0 : ℚ) ≤ s * ACTIVATION_WEIGHT + (1 - ACTIVATION_WEIGHT) := by
      have := mul_nonneg hs (by norm_num [ACTIVATION_WEIGHT] : (0 : ℚ) ≤ ACTIVATION_WEIGHT)
      unfold ACTIVATION_WEIGHT at *
      linarith
    have hnew : (0 : ℚ) ≤ a.leadsPerMonth * (1 + a.leadGrowthRate / 100) ^ (n + 1)
        * (a.demoRate / 100) * (a.trialRate / 100) * (a.paidRate / 100)
        * (s * ACTIVATION_WEIGHT + (1 - ACTIVATION_WEIGHT)) := by
      have hd : (0 : ℚ) ≤ a.demoRate / 100 := by positivity
      have ht : (0 : ℚ) ≤ a.trialRate / 100 := by positivity
      have hp : (0 : ℚ) ≤ a.paidRate / 100 := by positivity
      exact mul_nonneg (mul_nonneg (mul_nonneg (mul_nonneg hlead hd) ht) hp) hblend
    have hret : (0 : ℚ) ≤ customersAt a churn s n * (1 - churn / 100) :=
      mul_nonneg ih (by linarith)
    simp only [customersAt, monthStep]
    exact add_nonneg hret hnew

lemma customersAt_anti_churn (a : Assumptions) (hv : ValidAssumptions a) (s : ℚ)
    (hs : 0 ≤ s) (ch1 ch2 : ℚ) (h21 : ch2 ≤ ch1) (h1 : ch1 ≤ 100) :
    ∀ m, customersAt a ch1 s m ≤ customersAt a ch2 s m := by
  intro m
  induction m with
  | zero => exact le_refl _
  | succ n ih =>
    simp only [customersAt, monthStep]
    refine add_le_add ?_ (le_refl _)
    exact mul_le_mul ih (by linarith) (by linarith)
      (customersAt_nonneg a hv ch2 s (le_trans h21 h1) hs n)

lemma customersAt_mono_scale (a : Assumptions) (hv : ValidAssumptions a) (churn : ℚ)
    (hc1 : churn ≤ 100) (s1 s2 : ℚ) (hs1 : 0 ≤ s1) (h12 : s1 ≤ s2) :
    ∀ m, customersAt a churn s1 m ≤ customersAt a churn s2 m := by
  obtain ⟨_h1, _h2, h3, h4, h5, h6, h7⟩ := hv
  intro m
  induction m with
  | zero => exact le_refl _
  | succ n ih =>
    simp only [customersAt, monthStep]
    have hg : (0 : ℚ) ≤ 1 + a.leadGrowthRate / 100 := by linarith
    have hcoef : (0 : ℚ) ≤ a.leadsPerMonth * (1 + a.leadGrowthRate / 100) ^ (n + 1)
        * (a.demoRate / 100) * (a.trialRate / 100) * (a.paidRate / 100) := by
      have hd : (0 : ℚ) ≤ a.demoRate / 100 := by positivity
      have ht : (0 : ℚ) ≤ a.trialRate / 100 := by positivity
      have hp : (0 : ℚ) ≤ a.paidRate / 100 := by positivity
      exact mul_nonneg (mul_nonneg (mul_nonneg (mul_nonneg h3 (pow_nonneg hg _)) hd) ht) hp
    have hblend : s1 * ACTIVATION_WEIGHT + (1 - ACTIVATION_WEIGHT) ≤
        s2 * ACTIVATION_WEIGHT + (1 - ACTIVATION_WEIGHT) := by
      have := mul_nonneg (sub_nonneg.2 h12) (by norm_num [ACTIVATION_WEIGHT] : (0 : ℚ) ≤ ACTIVATION_WEIGHT)
      unfold ACTIVATION_WEIGHT at *
      nlinarith
    exact add_le_add (mul_le_mul_of_nonneg_right ih (by linarith))
      (mul_le_mul_of_nonneg_left hblend hcoef)

lemma customersAt_eq_specFold (a : Assumptions) (c act : ℚ) :
    ∀ h, customersAt a c (act / a.activationRate) h = specProjectCustomers a c act h := by
  intro h
  induction h with
  | zero => rfl
  | succ n ih =>
    unfold specProjectCustomers at ih ⊢
    rw [List.range_succ, List.foldl_append, ← ih]
    rfl

/-! ### Claim theorems -/

/-- Claim C1: for every assumption set with nonzero `activationRate`, every
triple of effective override values and every horizon, `calculateMRR`
returns `round(customers_h × arpuOverride × 1000)` where `customers_h`
follows the month-by-month recurrence exactly as the specification states
it (leads recomputed fresh from month zero each iteration, activation
ratio `activationOverride / activationRate`, blending weight `0.4`,
retention `1 − churnOverride/100`). -/
theorem kita_simulation_matches_spec_recurrence (a : Assumptions)
    (churnO arpuO activationO : ℚ) (horizon : ℕ) (hact : a.activationRate ≠ 0) :
    calculateMRR a (some churnO) (some arpuO) (some activationO) horizon =
      jsRound (specProjectCustomers a churnO activationO horizon * arpuO * 1000) := by
  unfold calculateMRR
  simp only [Option.getD_some]
  rw [customersAt_eq_specFold]

/-- Witness for C1 at the default assumptions with all levers at target. -/
theorem kita_simulation_matches_spec_recurrence_witness :
    DEFAULT_ASSUMPTIONS.activationRate ≠ 0 ∧
      calculateMRR DEFAULT_ASSUMPTIONS (some 2) (some 9) (some 60) 12 =
        jsRound (specProjectCustomers DEFAULT_ASSUMPTIONS 2 60 12 * 9 * 1000) := by
  have h : DEFAULT_ASSUMPTIONS.activationRate ≠ 0 := by norm_num [DEFAULT_ASSUMPTIONS]
  exact ⟨h, kita_simulation_matches_spec_recurrence DEFAULT_ASSUMPTIONS 2 9 60 12 h⟩

/-- Claim C2, counterexample: at the default assumptions with the lead
inflow removed, churn override `200 > 100` and non-negative ARPU override
`6`, the returned month-1 MRR is `−90000 < 0`: the claimed clamp of
retained customers at zero does not exist in the code. -/
theorem kita_churn_clamp_counterexample :
    calculateMRR NOLEAD_ASSUMPTIONS (some 200) (some 6) (some 35) 1 < 0 := by
  have h : calculateMRR NOLEAD_ASSUMPTIONS (some 200) (some 6) (some 35) 1 = -90000 := by
    unfold calculateMRR
    apply jsRound_eq_of <;>
      norm_num [customersAt, monthStep, ACTIVATION_WEIGHT, NOLEAD_ASSUMPTIONS,
        DEFAULT_ASSUMPTIONS]
  rw [h]
  norm_num

/-- Claim C2, amended: no clamp is applied — the loop computes
`retained = customers × (1 − churn/100)` unconditionally, so with churn
override strictly above 100, positive customers and no lead inflow the
running customer count is strictly negative after the first month (and the
returned MRR can be negative, `−90000` in the counterexample). -/
theorem kita_no_churn_clamp (a : Assumptions) (ch s : ℚ) (hl : a.leadsPerMonth = 0)
    (hc : 0 < a.customers) (hch : 100 < ch) : customersAt a ch s 1 < 0 := by
  simp only [customersAt, monthStep, hl, zero_mul, mul_zero, add_zero]
  have hf : 1 - ch / 100 < 0 := by linarith
  exact mul_neg_of_pos_of_neg hc hf

/-- Witness for the amended C2 at the no-lead assumptions with churn 200. -/
theorem kita_no_churn_clamp_witness :
    NOLEAD_ASSUMPTIONS.leadsPerMonth = 0 ∧ 0 < NOLEAD_ASSUMPTIONS.customers ∧
      (100 : ℚ) < 200 ∧ customersAt NOLEAD_ASSUMPTIONS 200 1 1 < 0 := by
  have h1 : NOLEAD_ASSUMPTIONS.leadsPerMonth = 0 := by norm_num [NOLEAD_ASSUMPTIONS,
    DEFAULT_ASSUMPTIONS]
  have h2 : 0 < NOLEAD_ASSUMPTIONS.customers := by norm_num [NOLEAD_ASSUMPTIONS,
    DEFAULT_ASSUMPTIONS]
  have h3 : (100 : ℚ) < 200 := by norm_num
  exact ⟨h1, h2, h3, kita_no_churn_clamp NOLEAD_ASSUMPTIONS 200 1 h1 h2 h3⟩

/-- Claim C3: at a data-model-valid assumption set whose baseline month-12
MRR is zero (full churn, no leads), `calcIndependentImpact` produces the
non-finite JS value modelled by `none` — not the defined sentinel the
specification requires; no caller treats it as zero impact. -/
theorem kita_zero_baseline_impact_nan :
    calcIndependentImpact DEGENERATE_ASSUMPTIONS Lever.arpu 9 = none := by
  simp [calcIndependentImpact, baselineMRR_degenerate]

/-- Claim C5, counterexample: strictly increasing the effective ARPU does
not strictly increase the returned MRR — at the default assumptions and
horizon 0 the ARPU overrides `6` and `6 + 1/100000` round to the same MRR. -/
theorem kita_arpu_strictness_counterexample :
    (6 : ℚ) < 6 + 1 / 100000 ∧
      calculateMRR DEFAULT_ASSUMPTIONS (some 5) (some (6 + 1 / 100000)) (some 35) 0 =
        calculateMRR DEFAULT_ASSUMPTIONS (some 5) (some 6) (some 35) 0 := by
  refine ⟨by norm_num, ?_⟩
  have h1 : calculateMRR DEFAULT_ASSUMPTIONS (some 5) (some (6 + 1 / 100000)) (some 35) 0 =
      90000 := by
    unfold calculateMRR
    apply jsRound_eq_of <;> norm_num [customersAt, DEFAULT_ASSUMPTIONS]
  have h2 : calculateMRR DEFAULT_ASSUMPTIONS (some 5) (some 6) (some 35) 0 = 90000 := by
    unfold calculateMRR
    apply jsRound_eq_of <;> norm_num [customersAt, DEFAULT_ASSUMPTIONS]
  rw [h1, h2]

/-- Claim C5, amended: over the data-model ranges of §3, holding all else
fixed — decreasing the effective churn (within `[0, 100]`) does not
decrease the MRR at any horizon ≥ 1; increasing the effective ARPU does
not decrease (rather than strictly increase) the MRR at any horizon; and
increasing the effective activation rate above baseline does not decrease
the MRR. -/
theorem kita_mrr_monotonicity (a : Assumptions) (hv : ValidAssumptions a) :
    (∀ ch1 ch2 ar act h, 0 ≤ ch2 → ch2 ≤ ch1 → ch1 ≤ 100 → 0 ≤ ar → 0 ≤ act → 1 ≤ h →
      calculateMRR a (some ch1) (some ar) (some act) h ≤
        calculateMRR a (some ch2) (some ar) (some act) h) ∧
    (∀ ch ar1 ar2 act h, ch ≤ 100 → 0 ≤ ar1 → ar1 ≤ ar2 → 0 ≤ act →
      calculateMRR a (some ch) (some ar1) (some act) h ≤
        calculateMRR a (some ch) (some ar2) (some act) h) ∧
    (∀ ch ar act1 act2 h, ch ≤ 100 → 0 ≤ ar → a.activationRate ≤ act1 → act1 ≤ act2 →
      calculateMRR a (some ch) (some ar) (some act1) h ≤
        calculateMRR a (some ch) (some ar) (some act2) h) := by
  have hpos : 0 < a.activationRate := hv.2.1
  refine ⟨?_, ?_, ?_⟩
  · intro ch1 ch2 ar act h _hch2 h21 h1 har hact _hh
    simp only [calculateMRR, Option.getD_some]
    apply jsRound_le_jsRound
    have hs : 0 ≤ act / a.activationRate := div_nonneg hact hpos.le
    exact mul_le_mul_of_nonneg_right
      (mul_le_mul_of_nonneg_right (customersAt_anti_churn a hv _ hs ch1 ch2 h21 h1 h) har)
      (by norm_num)
  · intro ch ar1 ar2 act h hch har1 h12 hact
    simp only [calculateMRR, Option.getD_some]
    apply jsRound_le_jsRound
    have hs : 0 ≤ act / a.activationRate := div_nonneg hact hpos.le
    have hc : 0 ≤ customersAt a ch (act / a.activationRate) h :=
      customersAt_nonneg a hv ch _ hch hs h
    exact mul_le_mul_of_nonneg_right (mul_le_mul_of_nonneg_left h12 hc) (by norm_num)
  · intro ch ar act1 act2 h hch har h31 h34
    simp only [calculateMRR, Option.getD_some]
    apply jsRound_le_jsRound
    have hs1 : 0 ≤ act1 / a.activationRate := div_nonneg (le_trans hpos.le h31) hpos.le
    have h12 : act1 / a.activationRate ≤ act2 / a.activationRate := by
      rw [div_eq_mul_inv, div_eq_mul_inv]
      exact mul_le_mul_of_nonneg_right h34 (inv_nonneg.mpr hpos.le)
    exact mul_le_mul_of_nonneg_right
      (mul_le_mul_of_nonneg_right (customersAt_mono_scale a hv ch hch _ _ hs1 h12 h) har)
      (by norm_num)

/-- Witness for the amended C5 at the default assumptions: lowering churn
from 5 to 2, raising ARPU from 6 to 9, and raising activation from 35 to
60 each do not decrease the month-12 MRR. -/
theorem kita_mrr_monotonicity_witness :
    ValidAssumptions DEFAULT_ASSUMPTIONS ∧
      calculateMRR DEFAULT_ASSUMPTIONS (some 5) (some 6) (some 35) 12 ≤
        calculateMRR DEFAULT_ASSUMPTIONS (some 2) (some 6) (some 35) 12 ∧
      calculateMRR DEFAULT_ASSUMPTIONS (some 5) (some 6) (some 35) 12 ≤
        calculateMRR DEFAULT_ASSUMPTIONS (some 5) (some 9) (some 35) 12 ∧
      calculateMRR DEFAULT_ASSUMPTIONS (some 5) (some 6) (some 35) 12 ≤
        calculateMRR DEFAULT_ASSUMPTIONS (some 5) (some 6) (some 60) 12 := by
  have hv : ValidAssumptions DEFAULT_ASSUMPTIONS := by
    norm_num [ValidAssumptions, DEFAULT_ASSUMPTIONS]
  refine ⟨hv, ?_, ?_, ?_⟩
  · exact (kita_mrr_monotonicity DEFAULT_ASSUMPTIONS hv).1 5 2 6 35 12 (by norm_num)
      (by norm_num) (by norm_num) (by norm_num) (by norm_num) (by norm_num)
  · exact (kita_mrr_monotonicity DEFAULT_ASSUMPTIONS hv).2.1 5 6 9 35 12 (by norm_num)
      (by norm_num) (by norm_num) (by norm_num)
  · exact (kita_mrr_monotonicity DEFAULT_ASSUMPTIONS hv).2.2 5 6 35 60 12 (by norm_num)
      (by norm_num) (by norm_num [DEFAULT_ASSUMPTIONS]) (by norm_num)

/-- Claim C6: with horizon 0 the loop body never runs, so `calculateMRR`
returns `round(assumptions.customers × arpuOverride × 1000)` — the initial
customer count priced at the overridden ARPU, with the churn and
activation overrides having no effect. -/
theorem kita_horizon_zero_identity (a : Assumptions) (churnO arpuO activationO : ℚ) :
    calculateMRR a (some churnO) (some arpuO) (some activationO) 0 =
      jsRound (a.customers * arpuO * 1000) := rfl

/-- Claim C7, counterexample: at a data-model-valid assumption set with
zero baseline month-12 MRR, `calcIndependentImpact` at the lever's own
baseline value yields the non-finite `none` (JS `NaN`), not 0. -/
theorem kita_baseline_neutral_counterexample :
    calcIndependentImpact DEGENERATE_ASSUMPTIONS Lever.churn
      (leverBase DEGENERATE_ASSUMPTIONS Lever.churn) ≠ some 0 := by
  simp [calcIndependentImpact, baselineMRR_degenerate]

/-- Claim C7, amended: whenever the baseline month-12 MRR is nonzero,
`calcIndependentImpact` applied to any lever at that lever's baseline
value returns 0. -/
theorem kita_baseline_neutral_impact (a : Assumptions) (l : Lever)
    (hb : baselineMRR a ≠ 0) :
    calcIndependentImpact a l (leverBase a l) = some 0 := by
  have hscen : scenarioMRR a l (leverBase a l) = baselineMRR a := by
    cases l <;> rfl
  have h0 : jsRound 0 = 0 := by
    apply jsRound_eq_of <;> norm_num
  simp [calcIndependentImpact, hb, impactVal, hscen, sub_self, zero_div, zero_mul, h0]

/-- Witness for the amended C7 at the default assumptions (churn lever). -/
theorem kita_baseline_neutral_impact_witness :
    baselineMRR DEFAULT_ASSUMPTIONS ≠ 0 ∧
      calcIndependentImpact DEFAULT_ASSUMPTIONS Lever.churn
        (leverBase DEFAULT_ASSUMPTIONS Lever.churn) = some 0 :=
  ⟨baselineMRR_default_ne,
    kita_baseline_neutral_impact DEFAULT_ASSUMPTIONS Lever.churn baselineMRR_default_ne⟩

/-- Claim C9: with the default assumption set, the month-12 MRR with all
three levers at their suggested targets (churn 2, arpu 9, activation 60)
strictly exceeds the month-12 MRR of each single-lever change alone. -/
theorem kita_targets_beat_single_levers :
    calculateMRR DEFAULT_ASSUMPTIONS (some 2) (some 6) (some 35) 12 <
      calculateMRR DEFAULT_ASSUMPTIONS (some 2) (some 9) (some 60) 12 ∧
    calculateMRR DEFAULT_ASSUMPTIONS (some 5) (some 9) (some 35) 12 <
      calculateMRR DEFAULT_ASSUMPTIONS (some 2) (some 9) (some 60) 12 ∧
    calculateMRR DEFAULT_ASSUMPTIONS (some 5) (some 6) (some 60) 12 <
      calculateMRR DEFAULT_ASSUMPTIONS (some 2) (some 9) (some 60) 12 := by
  rw [mrr_churn2_eval, mrr_arpu9_eval, mrr_act60_eval, mrr_all_eval]
  refine ⟨by norm_num, by norm_num, by norm_num⟩

/-- Claim C10: under the data-model ranges (non-negative customers, leads
and funnel rates, lead growth ≥ −100, positive baseline activation rate),
a non-negative effective activation override and an effective churn in
`[0, 100]`, the running customer count stays non-negative after every
monthly iteration, and the returned MRR is non-negative whenever the
effective ARPU override is non-negative. -/
theorem kita_customer_nonneg_invariant (a : Assumptions) (hv : ValidAssumptions a)
    (ch act : ℚ) (hc0 : 0 ≤ ch) (hc1 : ch ≤ 100) (ha : 0 ≤ act) :
    (∀ m, 0 ≤ customersAt a ch (act / a.activationRate) m) ∧
      (∀ ar h, 0 ≤ ar → 0 ≤ calculateMRR a (some ch) (some ar) (some act) h) := by
  have hs : 0 ≤ act / a.activationRate := div_nonneg ha hv.2.1.le
  have hcc : ∀ m, 0 ≤ customersAt a ch (act / a.activationRate) m :=
    customersAt_nonneg a hv ch _ hc1 hs
  refine ⟨hcc, ?_⟩
  intro ar h har
  simp only [calculateMRR, Option.getD_some]
  exact jsRound_nonneg (mul_nonneg (mul_nonneg (hcc h) har) (by norm_num))

/-- Witness for C10 at the default assumptions and baseline lever values. -/
theorem kita_customer_nonneg_invariant_witness :
    ValidAssumptions DEFAULT_ASSUMPTIONS ∧
      0 ≤ customersAt DEFAULT_ASSUMPTIONS 5 (35 / DEFAULT_ASSUMPTIONS.activationRate) 12 ∧
      0 ≤ calculateMRR DEFAULT_ASSUMPTIONS (some 5) (some 6) (some 35) 12 := by
  have hv : ValidAssumptions DEFAULT_ASSUMPTIONS := by
    norm_num [ValidAssumptions, DEFAULT_ASSUMPTIONS]
  have h := kita_customer_nonneg_invariant DEFAULT_ASSUMPTIONS hv 5 35 (by norm_num)
    (by norm_num) (by norm_num)
  exact ⟨hv, h.1 12, h.2 6 12 (by norm_num)⟩

/-- Claim C8, counterexample: at a data-model-valid assumption set whose
baseline month-12 MRR is zero, the retention initiative's `remaining` is
the non-finite JS value modelled by `none` (propagated `NaN`), so it is
neither `max(0, …)` nor `≥ 0`. -/
theorem kita_plan_remaining_counterexample :
    remainingOpt DEGENERATE_ASSUMPTIONS DEGENERATE_ASSUMPTIONS.churnRate Lever.churn =
      none := by
  have h1 : ∀ v, calcIndependentImpact DEGENERATE_ASSUMPTIONS Lever.churn v = none := by
    intro v
    unfold calcIndependentImpact
    rw [baselineMRR_degenerate]
    exact if_pos rfl
  unfold remainingOpt
  rw [h1, h1]

/-- Claim C8, amended: whenever the baseline month-12 MRR is nonzero, each
of the three plan initiatives carries
`remaining = max(0, |impact at target| − |impact at current|) ≥ 0` as
computed through `calcIndependentImpact`, and the output is a permutation
of the declared input order (retention, activation, monetization) sorted
descending by `remaining`, ties keeping the input order. -/
theorem kita_plan_prioritizer (a : Assumptions) (ec ea eact : ℚ)
    (hb : baselineMRR a ≠ 0) :
    (∀ p ∈ planRemaining a ec ea eact,
        remainingOpt a (currentOf ec ea eact p.1) p.1 = some p.2 ∧ 0 ≤ p.2) ∧
      (planRemaining a ec ea eact).Perm (planUnsorted a ec ea eact) ∧
      List.Pairwise
        (fun p q : Lever × ℤ => q.2 ≤ p.2 ∧ (p.2 = q.2 → planIdx p.1 < planIdx q.1))
        (planRemaining a ec ea eact) := by
  have hrem : ∀ cur l, remainingOpt a cur l = some (remainingVal a cur l) := by
    intro cur l
    have h1 : calcIndependentImpact a l l.targetValue = some (impactVal a l l.targetValue) := by
      unfold calcIndependentImpact
      exact if_neg hb
    have h2 : calcIndependentImpact a l cur = some (impactVal a l cur) := by
      unfold calcIndependentImpact
      exact if_neg hb
    unfold remainingOpt
    rw [h1, h2]
    rfl
  refine ⟨?_, sortDesc_perm _, sortDesc_three_pairwise _ _ _⟩
  intro p hp
  have hperm : (planRemaining a ec ea eact).Perm (planUnsorted a ec ea eact) :=
    sortDesc_perm _
  have hp' : p ∈ planUnsorted a ec ea eact := hperm.mem_iff.mp hp
  simp only [planUnsorted, List.mem_cons, List.not_mem_nil, or_false] at hp'
  rcases hp' with h | h | h <;> subst h <;>
    exact ⟨by simp [currentOf, hrem], le_max_left _ _⟩

/-- Witness for the amended C8 at the default assumptions with all levers
at baseline: the plan output is a permutation of the declared initiatives. -/
theorem kita_plan_prioritizer_witness :
    baselineMRR DEFAULT_ASSUMPTIONS ≠ 0 ∧
      (planRemaining DEFAULT_ASSUMPTIONS 5 6 35).Perm
        (planUnsorted DEFAULT_ASSUMPTIONS 5 6 35) :=
  ⟨baselineMRR_default_ne,
    (kita_plan_prioritizer DEFAULT_ASSUMPTIONS 5 6 35 baselineMRR_default_ne).2.1⟩

/-- Claim C4, amended: with a nonzero baseline MRR and at least two
modified levers, the retention+monetization template is selected exactly
when all three levers are modified and the combined retention+monetization
impact exceeds `1.5 ×` the activation impact; in every other at-least-two
case the generic template is selected (the code additionally requires
activation itself to be modified, which the original claim omitted). -/
theorem kita_insight_selection_amended (a : Assumptions) (ec ea eact : ℚ)
    (hb : baselineMRR a ≠ 0) (h2 : 2 ≤ (insightModified a ec ea eact).length) :
    (insightTemplate a ec ea eact = InsightTemplate.retMonBeatActivation ↔
      retMonCond a ec ea eact) ∧
    (¬ retMonCond a ec ea eact → insightTemplate a ec ea eact = InsightTemplate.generic) := by
  have hC : calcIndependentImpact a Lever.churn ec = some (impactVal a Lever.churn ec) := by
    unfold calcIndependentImpact
    exact if_neg hb
  have hA : calcIndependentImpact a Lever.arpu ea = some (impactVal a Lever.arpu ea) := by
    unfold calcIndependentImpact
    exact if_neg hb
  have hT : calcIndependentImpact a Lever.activation eact =
      some (impactVal a Lever.activation eact) := by
    unfold calcIndependentImpact
    exact if_neg hb
  obtain ⟨pC, hpC⟩ : ∃ p, |impactVal a Lever.churn ec| = p := ⟨_, rfl⟩
  obtain ⟨pA, hpA⟩ : ∃ p, |impactVal a Lever.arpu ea| = p := ⟨_, rfl⟩
  obtain ⟨pT, hpT⟩ : ∃ p, |impactVal a Lever.activation eact| = p := ⟨_, rfl⟩
  have hC0 : 0 ≤ pC := hpC ▸ abs_nonneg _
  have hA0 : 0 ≤ pA := hpA ▸ abs_nonneg _
  have hT0 : 0 ≤ pT := hpT ▸ abs_nonneg _
  have hcond : retMonCond a ec ea eact ↔
      (0 < pC ∧ 0 < pA ∧ 0 < pT ∧ ((pC : ℚ) + (pA : ℚ) > (pT : ℚ) * (3 / 2))) := by
    unfold retMonCond
    rw [hpC, hpA, hpT]
  have hpcts : insightPcts a ec ea eact =
      [(Lever.churn, some pC), (Lever.arpu, some pA), (Lever.activation, some pT)] := by
    unfold insightPcts
    rw [hC, hA, hT]
    simp [hpC, hpA, hpT]
  rw [hcond]
  unfold insightTemplate
  rw [show insightModified a ec ea eact =
      List.filter isModifiedEntry
        [(Lever.churn, some pC), (Lever.arpu, some pA), (Lever.activation, some pT)] from by
    unfold insightModified
    rw [hpcts]] at h2 ⊢
  simp only []
  rcases hC0.lt_or_eq with hc | hc
  · rcases hA0.lt_or_eq with ha | ha
    · rcases hT0.lt_or_eq with ht | ht
      · rw [show List.filter isModifiedEntry
            [(Lever.churn, some pC), (Lever.arpu, some pA), (Lever.activation, some pT)] =
            [(Lever.churn, some pC), (Lever.arpu, some pA), (Lever.activation, some pT)] from by
          simp [List.filter_cons, isModifiedEntry, hc, ha, ht]]
        rw [show List.filter (fun p => decide (p.1 ≠ Lever.activation))
            [(Lever.churn, some pC), (Lever.arpu, some pA), (Lever.activation, some pT)] =
            [(Lever.churn, some pC), (Lever.arpu, some pA)] from rfl]
        rw [show List.filter (fun p => decide (p.1 = Lever.activation))
            [(Lever.churn, some pC), (Lever.arpu, some pA), (Lever.activation, some pT)] =
            [(Lever.activation, some pT)] from rfl]
        norm_num [pctOf, List.headI]
        constructor
        · constructor
          · intro himp
            rcases lt_or_le ((pT : ℚ) * (3 / 2)) ((pC : ℚ) + (pA : ℚ)) with hgt | hle
            · exact ⟨hc, ha, ht, hgt⟩
            · exact absurd (himp hle) (by decide)
          · intro hrhs hle
            exact absurd hrhs.2.2.2 (by linarith)
        · intro himp hgt
          exact absurd (himp hc ha ht) (by linarith)
      · subst ht
        rw [show List.filter isModifiedEntry
            [(Lever.churn, some pC), (Lever.arpu, some pA), (Lever.activation, some (0 : ℤ))] =
            [(Lever.churn, some pC), (Lever.arpu, some pA)] from by
          simp [List.filter_cons, isModifiedEntry, hc, ha]]
        rw [show List.filter (fun p => decide (p.1 ≠ Lever.activation))
            [(Lever.churn, some pC), (Lever.arpu, some pA)] =
            [(Lever.churn, some pC), (Lever.arpu, some pA)] from rfl]
        rw [show List.filter (fun p => decide (p.1 = Lever.activation))
            [(Lever.churn, some pC), (Lever.arpu, some pA)] =
            ([] : List (Lever × Option ℤ)) from rfl]
        norm_num [pctOf, List.headI]
        decide
    · subst ha
      rcases hT0.lt_or_eq with ht | ht
      · rw [show List.filter isModifiedEntry
            [(Lever.churn, some pC), (Lever.arpu, some (0 : ℤ)), (Lever.activation, some pT)] =
            [(Lever.churn, some pC), (Lever.activation, some pT)] from by
          simp [List.filter_cons, isModifiedEntry, hc, ht]]
        rw [show List.filter (fun p => decide (p.1 ≠ Lever.activation))
            [(Lever.churn, some pC), (Lever.activation, some pT)] =
            [(Lever.churn, some pC)] from rfl]
        rw [show List.filter (fun p => decide (p.1 = Lever.activation))
            [(Lever.churn, some pC), (Lever.activation, some pT)] =
            [(Lever.activation, some pT)] from rfl]
        norm_num [pctOf, List.headI]
        decide
      · subst ht
        rw [show List.filter isModifiedEntry
            [(Lever.churn, some pC), (Lever.arpu, some (0 : ℤ)),
              (Lever.activation, some (0 : ℤ))] =
            [(Lever.churn, some pC)] from by
          simp [List.filter_cons, isModifiedEntry, hc]] at h2
        norm_num at h2
  · subst hc
    rcases hA0.lt_or_eq with ha | ha
    · rcases hT0.lt_or_eq with ht | ht
      · rw [show List.filter isModifiedEntry
            [(Lever.churn, some (0 : ℤ)), (Lever.arpu, some pA), (Lever.activation, some pT)] =
            [(Lever.arpu, some pA), (Lever.activation, some pT)] from by
          simp [List.filter_cons, isModifiedEntry, ha, ht]]
        rw [show List.filter (fun p => decide (p.1 ≠ Lever.activation))
            [(Lever.arpu, some pA), (Lever.activation, some pT)] =
            [(Lever.arpu, some pA)] from rfl]
        rw [show List.filter (fun p => decide (p.1 = Lever.activation))
            [(Lever.arpu, some pA), (Lever.activation, some pT)] =
            [(Lever.activation, some pT)] from rfl]
        norm_num [pctOf, List.headI]
        decide
      · subst ht
        rw [show List.filter isModifiedEntry
            [(Lever.churn, some (0 : ℤ)), (Lever.arpu, some pA),
              (Lever.activation, some (0 : ℤ))] =
            [(Lever.arpu, some pA)] from by
          simp [List.filter_cons, isModifiedEntry, ha]] at h2
        norm_num at h2
    · subst ha
      rcases hT0.lt_or_eq with ht | ht
      · rw [show List.filter isModifiedEntry
            [(Lever.churn, some (0 : ℤ)), (Lever.arpu, some (0 : ℤ)),
              (Lever.activation, some pT)] =
            [(Lever.activation, some pT)] from by
          simp [List.filter_cons, isModifiedEntry, ht]] at h2
        norm_num at h2
      · subst ht
        rw [show List.filter isModifiedEntry
            [(Lever.churn, some (0 : ℤ)), (Lever.arpu, some (0 : ℤ)),
              (Lever.activation, some (0 : ℤ))] =
            ([] : List (Lever × Option ℤ)) from by
          simp [List.filter_cons, isModifiedEntry]] at h2
        norm_num at h2

/-- Claim C4, counterexample: at the defaults with churn 2, arpu 9 and
activation at baseline 35, two levers are modified and the combined
retention+monetization impact (16 + 50) exceeds `1.5 ×` the activation
impact (0), yet the code does not select the retention+monetization
template (activation is unmodified, so `acqImpact` is falsy and the
generic template is chosen). -/
theorem kita_insight_pair_counterexample :
    2 ≤ (insightModified DEFAULT_ASSUMPTIONS 2 9 35).length ∧
      (((|impactVal DEFAULT_ASSUMPTIONS Lever.churn 2| : ℤ) : ℚ) +
          ((|impactVal DEFAULT_ASSUMPTIONS Lever.arpu 9| : ℤ) : ℚ) >
        ((|impactVal DEFAULT_ASSUMPTIONS Lever.activation 35| : ℤ) : ℚ) * (3 / 2)) ∧
      insightTemplate DEFAULT_ASSUMPTIONS 2 9 35 ≠ InsightTemplate.retMonBeatActivation := by
  have hC : calcIndependentImpact DEFAULT_ASSUMPTIONS Lever.churn 2 = some 16 := by
    unfold calcIndependentImpact
    rw [if_neg baselineMRR_default_ne, impact_churn2_eval]
  have hA : calcIndependentImpact DEFAULT_ASSUMPTIONS Lever.arpu 9 = some 50 := by
    unfold calcIndependentImpact
    rw [if_neg baselineMRR_default_ne, impact_arpu9_eval]
  have hT : calcIndependentImpact DEFAULT_ASSUMPTIONS Lever.activation 35 = some 0 := by
    unfold calcIndependentImpact
    rw [if_neg baselineMRR_default_ne, impact_act35_eval]
  have hm : insightModified DEFAULT_ASSUMPTIONS 2 9 35 =
      [(Lever.churn, some 16), (Lever.arpu, some 50)] := by
    unfold insightModified insightPcts
    rw [hC, hA, hT]
    rfl
  refine ⟨?_, ?_, ?_⟩
  · rw [hm]
    norm_num
  · rw [impact_churn2_eval, impact_arpu9_eval, impact_act35_eval]
    norm_num
  · unfold insightTemplate
    rw [hm]
    simp only []
    rw [show List.filter (fun p => decide (p.1 = Lever.activation))
        [(Lever.churn, some (16 : ℤ)), (Lever.arpu, some 50)] =
        ([] : List (Lever × Option ℤ)) from rfl]
    norm_num
    decide

/-- Witness for the amended C4 at the defaults with all levers moved to
their targets (all three impacts nonzero). -/
theorem kita_insight_selection_witness :
    baselineMRR DEFAULT_ASSUMPTIONS ≠ 0 ∧
      2 ≤ (insightModified DEFAULT_ASSUMPTIONS 2 9 60).length ∧
      ((insightTemplate DEFAULT_ASSUMPTIONS 2 9 60 = InsightTemplate.retMonBeatActivation) ↔
        retMonCond DEFAULT_ASSUMPTIONS 2 9 60) := by
  have hC : calcIndependentImpact DEFAULT_ASSUMPTIONS Lever.churn 2 = some 16 := by
    unfold calcIndependentImpact
    rw [if_neg baselineMRR_default_ne, impact_churn2_eval]
  have hA : calcIndependentImpact DEFAULT_ASSUMPTIONS Lever.arpu 9 = some 50 := by
    unfold calcIndependentImpact
    rw [if_neg baselineMRR_default_ne, impact_arpu9_eval]
  have hT : calcIndependentImpact DEFAULT_ASSUMPTIONS Lever.activation 60 = some 27 := by
    unfold calcIndependentImpact
    rw [if_neg baselineMRR_default_ne, impact_act60_eval]
  have hm : insightModified DEFAULT_ASSUMPTIONS 2 9 60 =
      [(Lever.churn, some 16), (Lever.arpu, some 50), (Lever.activation, some 27)] := by
    unfold insightModified insightPcts
    rw [hC, hA, hT]
    rfl
  have h2 : 2 ≤ (insightModified DEFAULT_ASSUMPTIONS 2 9 60).length := by
    rw [hm]
    norm_num
  exact ⟨baselineMRR_default_ne, h2,
    (kita_insight_selection_amended DEFAULT_ASSUMPTIONS 2 9 60 baselineMRR_default_ne h2).1⟩
